import Mathlib

/-!
Verification of the website design evaluator.

This file is a shallow embedding, in Lean 4, of the scoring, batching and
image-analysis routines of the evaluator (modules
`src/website_evaluator.py` and `src/design_analyzer.py`), together with
theorems settling the specification claims about them.

Modelling conventions:
* Python numbers (ints and floats) are modelled as exact rationals `ℚ`;
  `round(x, 2)` is modelled as decimal round-half-to-even (the tie rule of
  Python `round`) applied to `100 * x`.
* Python dicts that the code iterates over are modelled as association
  lists in insertion order, with first-match lookup.
* Code that may raise is given an explicit `Except`/`Option` input or
  result; an exception raised by an external call (network, OpenCV, PIL)
  is a distinguished input value.
* The unseeded global NumPy random state is threaded as an explicit seed
  argument: a program run corresponds to one ambient seed value, which the
  code never fixes.
-/

namespace EvalModel

/-- Round-half-to-even on rationals, the tie-breaking rule of Python
`round`: `roundHalfEven 2.5 = 2`, `roundHalfEven 3.5 = 4`. -/
def roundHalfEven (q : ℚ) : ℤ :=
  let f : ℤ := ⌊q⌋
  let r : ℚ := q - f
  if r < 1/2 then f
  else if 1/2 < r then f + 1
  else if Even f then f else f + 1

/-- Model of Python `round(x, 2)`: round to 2 decimal places with ties to
even. -/
def pythonRound2 (q : ℚ) : ℚ :=
  (roundHalfEven (q * 100) : ℚ) / 100

/-- First-match lookup in an association list, modelling Python dict
lookup (dict keys are unique, so first match is the match). -/
def alookup {α : Type} (l : List (String × α)) (k : String) : Option α :=
  (l.find? (fun p => p.1 = k)).map Prod.snd

/-- Embedding of `WebsiteEvaluator._calculate_final_score`
(`src/website_evaluator.py` lines 139-158): iterate over the configured
scoring weights in order; for each category also present in the analysis
results, accumulate `score * weight`; round the total to 2 decimal
places.  `weights` maps category name to weight (the `weight` field of
the config entry); `results` maps category name to the `score` field of
its analysis result. -/
def calculate_final_score (weights results : List (String × ℚ)) : ℚ :=
  pythonRound2 <| weights.foldl
    (fun acc cw =>
      match alookup results cw.1 with
      | some s => acc + s * cw.2
      | none => acc)
    0

/-- A Python value passed to `get_score_category` as `score`: a numeric
value, `None`, or a non-numeric object (anything failing
`isinstance(score, (int, float))`). -/
inductive PyScore where
  | num (q : ℚ)
  | noneVal
  | nonNumeric
deriving DecidableEq

/-- One entry of the `score_ranges` config dict: name with inclusive
bounds (the `color` field of the config entry plays no role in
categorisation and is omitted). -/
structure ScoreRange where
  name : String
  min : ℚ
  max : ℚ
deriving DecidableEq

/-- Clamping to [0, 100]: the `max(0, min(100, float(score)))` step of
`get_score_category` (`src/website_evaluator.py` line 210). -/
def clampScore (q : ℚ) : ℚ := max 0 (min 100 q)

/-- Scan the configured ranges in their defined order and return the name
of the first range whose inclusive bounds contain the score. -/
def findCategory (ranges : List ScoreRange) (s : ℚ) : Option String :=
  (ranges.find? (fun r => decide (r.min ≤ s ∧ s ≤ r.max))).map ScoreRange.name

/-- Embedding of `WebsiteEvaluator.get_score_category`
(`src/website_evaluator.py` lines 190-220): `None` and non-numeric scores
are replaced by 50; the score is then clamped to [0, 100]; the configured
ranges are scanned in order and the first containing range names the
category; when no range matches, the fallback result is the literal
string `"fair"`. -/
def get_score_category (ranges : List ScoreRange) (v : PyScore) : String :=
  let s0 : ℚ := match v with
    | .num q => q
    | .noneVal => 50
    | .nonNumeric => 50
  let s : ℚ := clampScore s0
  match findCategory ranges s with
  | some name => name
  | none => "fair"

/-- The scoring weights of `tests/test_evaluator.py` (`setUp`):
typography 0.25, color 0.20, layout 0.25, usability 0.20,
modern_design 0.10. -/
def testWeights : List (String × ℚ) :=
  [("typography", 1/4), ("color", 1/5), ("layout", 1/4),
   ("usability", 1/5), ("modern_design", 1/10)]

/-- The analysis scores of the spec example and of
`tests/test_evaluator.py` (`test_calculate_final_score`). -/
def testScores : List (String × ℚ) :=
  [("typography", 80), ("color", 90), ("layout", 70),
   ("usability", 85), ("modern_design", 75)]

/-- The score ranges of `tests/test_evaluator.py` (`setUp`):
excellent [90, 100] and poor [0, 59]; the interval (59, 90) is uncovered. -/
def testRanges : List ScoreRange :=
  [⟨"excellent", 90, 100⟩, ⟨"poor", 0, 59⟩]

/-- One slot of a batch-evaluation result: either a full evaluation
result, or the error record `{url, error, timestamp}` appended when the
evaluation of that URL raised
(`src/website_evaluator.py` lines 180-186). -/
inductive BatchItem (α : Type) where
  | ok (r : α)
  | errRec (url errorMessage timestamp : String)
deriving DecidableEq

/-- Embedding of `WebsiteEvaluator.batch_evaluate`
(`src/website_evaluator.py` lines 160-188).  `ev` is the (effectful)
`evaluate_website` call, modelled as a function from URL to either an
evaluation result or the message of the exception it raised; `clock`
gives the `datetime.now().isoformat()` string recorded in an error
record.  Each URL is evaluated independently in input order; a raise is
caught per URL and becomes an error record in that slot of the result
list. -/
def batch_evaluate {α : Type} (ev : String → Except String α)
    (clock : String → String) (urls : List String) : List (BatchItem α) :=
  urls.map (fun u =>
    match ev u with
    | .ok r => .ok r
    | .error e => .errRec u e (clock u))

/-- The relevant keys of the parsed JSON value when it is an object
(a Python dict).  Each field is optional: the prompt demands fifteen
keys (`src/design_analyzer.py` lines 151-168) but the model may answer
with an object missing some of them, and `analyze_design` reads every
key with `.get(key, default)`. -/
structure AIObject where
  typography_score : Option ℚ
  typography_analysis : Option String
  typography_recommendations : Option (List String)
  color_score : Option ℚ
  color_analysis : Option String
  color_recommendations : Option (List String)
  layout_score : Option ℚ
  layout_analysis : Option String
  layout_recommendations : Option (List String)
  usability_score : Option ℚ
  usability_analysis : Option String
  usability_recommendations : Option (List String)
  modern_design_score : Option ℚ
  modern_design_analysis : Option String
  modern_design_recommendations : Option (List String)
deriving DecidableEq

/-- The value produced by `json.loads` on the model response: either a
JSON object (a dict, carrying the keys above), or any parseable
non-object JSON value such as `null`, an array, a string or a number.
`typeName` stands for the Python type name of the non-object value
(`NoneType`, `list`, `str`, ...), which only feeds the text of the
`AttributeError` raised later when `.get` is looked up on it. -/
inductive ParsedResponse where
  | obj (a : AIObject)
  | nonObj (typeName : String)
deriving DecidableEq

/-- The default dict returned by the `except` block inside
`DesignAnalyzer._analyze_with_openai` (`src/design_analyzer.py`
lines 201-220): score 70, a generic narrative and exactly one generic
recommendation for each of the five categories; all fifteen keys are
present. -/
def openaiFailureDefault : AIObject :=
  { typography_score := some 70
    typography_analysis := some "Análisis no disponible"
    typography_recommendations := some ["Verificar contraste de texto"]
    color_score := some 70
    color_analysis := some "Análisis no disponible"
    color_recommendations := some ["Revisar esquema de colores"]
    layout_score := some 70
    layout_analysis := some "Análisis no disponible"
    layout_recommendations := some ["Mejorar estructura visual"]
    usability_score := some 70
    usability_analysis := some "Análisis no disponible"
    usability_recommendations := some ["Simplificar navegación"]
    modern_design_score := some 70
    modern_design_analysis := some "Análisis no disponible"
    modern_design_recommendations := some ["Actualizar diseño visual"] }

/-- Embedding of `DesignAnalyzer._get_default_ai_analysis`
(`src/design_analyzer.py` lines 427-445), the default used by the outer
handler of `analyze_design` (two recommendations per category).  The
outer handler is unreachable because `_analyze_with_openai` catches every
exception internally, but the definition is kept for completeness. -/
def get_default_ai_analysis : AIObject :=
  { typography_score := some 70
    typography_analysis := some "Análisis automático: Tipografía estándar detectada"
    typography_recommendations :=
      some ["Verificar legibilidad del texto", "Considerar mejores contrastes"]
    color_score := some 70
    color_analysis := some "Análisis automático: Esquema de colores básico"
    color_recommendations := some ["Revisar armonía cromática", "Mejorar contraste"]
    layout_score := some 70
    layout_analysis := some "Análisis automático: Estructura de layout convencional"
    layout_recommendations := some ["Optimizar espaciado", "Mejorar jerarquía visual"]
    usability_score := some 70
    usability_analysis := some "Análisis automático: Usabilidad básica"
    usability_recommendations := some ["Simplificar navegación", "Mejorar accesibilidad"]
    modern_design_score := some 70
    modern_design_analysis := some "Análisis automático: Diseño funcional"
    modern_design_recommendations :=
      some ["Modernizar elementos visuales", "Seguir tendencias actuales"] }

/-- Embedding of `DesignAnalyzer._analyze_with_openai`
(`src/design_analyzer.py` lines 104-220).  The whole body (file read,
network call, markdown stripping, `json.loads`) sits in one `try`;
`call` is its outcome: `.ok` with whatever JSON value `json.loads`
produced when nothing raised, or `.error` with the exception message
when anything in the body raised (network error, provider error,
non-parseable response).  The `except` branch returns the fixed default
dict, so the function itself never raises; but a parseable response
that is not an object is returned as-is, with no default
substituted. -/
def analyze_with_openai (call : Except String ParsedResponse) : ParsedResponse :=
  match call with
  | .ok j => j
  | .error _ => .obj openaiFailureDefault

/-- One category entry of the `analyze_design` result dict: the `score`,
`analysis` and `recommendations` fields (`src/design_analyzer.py`
lines 71-100).  The `technical_data` sub-dicts of typography, color and
layout are produced by the separate image analyzers embedded below and
are orthogonal to the AI-failure claims, so they are not repeated in
this record. -/
structure CategoryResult where
  score : ℚ
  analysis : String
  recommendations : List String
deriving DecidableEq

/-- The five category results that `analyze_design` builds from a dict
`ai_analysis` (`src/design_analyzer.py` lines 71-100), in dict insertion
order, each field read with `.get(key, default)`: scores default to 70,
narratives to the empty string, recommendation lists to the empty
list. -/
def categoryResults (a : AIObject) : List (String × CategoryResult) :=
  [("typography",
    ⟨a.typography_score.getD 70, a.typography_analysis.getD "",
     a.typography_recommendations.getD []⟩),
   ("color",
    ⟨a.color_score.getD 70, a.color_analysis.getD "",
     a.color_recommendations.getD []⟩),
   ("layout",
    ⟨a.layout_score.getD 70, a.layout_analysis.getD "",
     a.layout_recommendations.getD []⟩),
   ("usability",
    ⟨a.usability_score.getD 70, a.usability_analysis.getD "",
     a.usability_recommendations.getD []⟩),
   ("modern_design",
    ⟨a.modern_design_score.getD 70, a.modern_design_analysis.getD "",
     a.modern_design_recommendations.getD []⟩)]

/-- Embedding of the AI part of `DesignAnalyzer.analyze_design`
(`src/design_analyzer.py` lines 52-102): obtain `ai_analysis` from
`_analyze_with_openai` (total, so the outer `except` at lines 56-58
never fires) and build the five category results with `.get` reads.
When the parsed response is not a dict, the very first read
`ai_analysis.get(..., 70)` at line 73 raises an `AttributeError` — that
line sits outside every `try` block, so the exception propagates out of
`analyze_design`; the `.error` result models it, its message standing
for the Python text naming the offending type. -/
def analyze_design (call : Except String ParsedResponse) :
    Except String (List (String × CategoryResult)) :=
  match analyze_with_openai call with
  | .obj a => .ok (categoryResults a)
  | .nonObj t => .error ("AttributeError: " ++ t ++ " object has no attribute get")

/-- One step of the scanning loop of `DesignAnalyzer._find_sections`
(`src/design_analyzer.py` lines 411-419).  The state is
`(i, in_section, section_start, sections)`: the enumeration index, the
flag, the start of the open section, and the sections emitted so far.
A value below the threshold while not in a section opens one at the
current index; a value at or above the threshold while in a section
closes it at the current index. -/
def fsStep (threshold : ℚ) :
    ℕ × Bool × ℕ × List (ℕ × ℕ) → ℚ → ℕ × Bool × ℕ × List (ℕ × ℕ)
  | (i, inSection, start, secs), v =>
    if v < threshold ∧ inSection = false then (i + 1, true, i, secs)
    else if threshold ≤ v ∧ inSection = true then
      (i + 1, false, start, secs ++ [(start, i)])
    else (i + 1, inSection, start, secs)

/-- Embedding of `DesignAnalyzer._find_sections`
(`src/design_analyzer.py` lines 396-425): scan the vertical intensity
profile with `fsStep` starting from `(0, False, 0, [])`; after the loop,
a still-open section is closed at the profile length.  The Python
default for `threshold` is 10. -/
def find_sections (profile : List ℚ) (threshold : ℚ) : List (ℕ × ℕ) :=
  let st := profile.foldl (fsStep threshold) (0, false, 0, [])
  if st.2.1 = true then st.2.2.2 ++ [(st.2.2.1, st.1)] else st.2.2.2

/-- The profile used by the spec example and by
`tests/test_evaluator.py` (`test_find_sections`). -/
def exampleProfile : List ℚ := [5, 5, 5, 50, 50, 5, 5, 30, 30, 30, 5, 5]

/-- Number of entries of a grayscale matrix strictly below 240, the
content-pixel count `np.count_nonzero(gray < 240)` of
`_analyze_layout`. -/
def countContent (gray : List (List ℕ)) : ℕ :=
  (gray.map (fun row => (row.filter (fun v => v < 240)).length)).sum

/-- Arithmetic mean of a list of rationals; the empty list gives 0 under
rational division by zero (NumPy only takes these means of nonempty
arrays). -/
def listMean (l : List ℚ) : ℚ := l.sum / (l.length : ℚ)

/-- Row means of a grayscale matrix: `np.mean(gray, axis=1)`, the
vertical intensity profile of `_analyze_layout`. -/
def rowMeans (gray : List (List ℕ)) : List ℚ :=
  gray.map (fun row => ((row.sum : ℚ)) / (row.length : ℚ))

/-- Mean of all entries of a grayscale matrix: `np.mean` of a 2-D
array. -/
def matMean (gray : List (List ℕ)) : ℚ :=
  ((gray.map (fun row => (row.sum : ℚ))).sum) /
    (((gray.map List.length).sum : ℕ) : ℚ)

/-- Input of `_analyze_layout` on its success path: the grayscale matrix
produced by `cv2.cvtColor` (rows of intensities 0-255), and the length of
the `cv2.HoughLines` result on the Canny edges, which this embedding
abstracts as an oracle value (both conversions are external OpenCV
calls). -/
structure LayoutInput where
  gray : List (List ℕ)
  lineCount : ℕ

/-- The result dict of `DesignAnalyzer._analyze_layout`
(`src/design_analyzer.py` lines 314-332). -/
structure LayoutResult where
  content_density : ℚ
  line_count : ℕ
  sections_detected : ℕ
  horizontal_balance : ℚ
  whitespace_ratio : ℚ
  image_dimensions : ℕ × ℕ

/-- Embedding of `DesignAnalyzer._analyze_layout`
(`src/design_analyzer.py` lines 279-332).  `input` is `some` of the
grayscale data when the `try` body runs to completion and `none` when
any exception occurs inside it; the `except` branch returns the fixed
default dict (density 0.5, 0 lines, 3 sections, balance 10.0, whitespace
ratio 0.3, dimensions 1920 times 1080) and never propagates the
exception.  On the success path the whitespace ratio is computed as
`1 - content_density`, sections come from `find_sections` on the row
means with the default threshold 10, and the horizontal balance is the
absolute difference of the means of the left and right halves split at
`width // 2`. -/
def analyze_layout (input : Option LayoutInput) : LayoutResult :=
  match input with
  | some inp =>
    let gray := inp.gray
    let height := gray.length
    let width := (gray.headD []).length
    let density : ℚ := (countContent gray : ℚ) / ((height * width : ℕ) : ℚ)
    { content_density := density
      line_count := inp.lineCount
      sections_detected := (find_sections (rowMeans gray) 10).length
      horizontal_balance :=
        |matMean (gray.map (List.take (width / 2))) -
          matMean (gray.map (List.drop (width / 2)))|
      whitespace_ratio := 1 - density
      image_dimensions := (width, height) }
  | none =>
    { content_density := 1/2
      line_count := 0
      sections_detected := 3
      horizontal_balance := 10
      whitespace_ratio := 3/10
      image_dimensions := (1920, 1080) }

/-- An RGB pixel of the screenshot, after `convert(RGB)`. -/
def Pixel : Type := ℕ × ℕ × ℕ

instance : DecidableEq Pixel := by
  unfold Pixel
  infer_instance

/-- A linear congruential step, the deterministic model of one draw from
the global NumPy random state.  The code never seeds this state, so the
ambient state at call time is an arbitrary seed value threaded through
the embedding. -/
def lcg (s : ℕ) : ℕ := (s * 1103515245 + 12345) % 4294967296

/-- Draw `k` elements without replacement from `pool`, consuming one
`lcg` step per draw: the model of
`np.random.choice(n, size, replace=False)` given the ambient random
state. -/
def draw (state k : ℕ) (pool : List ℕ) : List ℕ :=
  match k with
  | 0 => []
  | k + 1 =>
    if pool.length = 0 then []
    else
      let st := lcg state
      let i := st % pool.length
      pool.getD i 0 :: draw st k (pool.eraseIdx i)

/-- Indices of the sampled pixels: `np.random.choice(len(pixels),
sample_size, replace=False)` for the ambient seed. -/
def sampleIndices (seed n k : ℕ) : List ℕ := draw seed k (List.range n)

/-- The sampled pixel rows `pixels[indices]` of `_analyze_colors`
(`src/design_analyzer.py` lines 244-246), with
`sample_size = min(10000, len(pixels))`. -/
def samplePixels (px : List Pixel) (seed : ℕ) : List Pixel :=
  (sampleIndices seed px.length (min 10000 px.length)).map
    (fun i => px.getD i (0, 0, 0))

/-- A cluster centroid in RGB space. -/
def Centroid : Type := ℚ × ℚ × ℚ

/-- Squared euclidean distance from a pixel to a centroid. -/
def dist2 (p : Pixel) (c : Centroid) : ℚ :=
  ((p.1 : ℚ) - c.1) ^ 2 + ((p.2.1 : ℚ) - c.2.1) ^ 2 + ((p.2.2 : ℚ) - c.2.2) ^ 2

/-- Index of the first minimum of a list of distances (ties to the
earlier cluster). -/
def argminAux : List ℚ → ℕ → ℕ → ℚ → ℕ
  | [], _, bi, _ => bi
  | d :: ds, i, bi, bd =>
    if d < bd then argminAux ds (i + 1) i d else argminAux ds (i + 1) bi bd

/-- Index of the first minimum of a nonempty list; 0 for the empty
list. -/
def argmin (l : List ℚ) : ℕ :=
  match l with
  | [] => 0
  | d :: ds => argminAux ds 1 0 d

/-- Mean of a cluster of pixels; an empty cluster keeps its previous
centroid. -/
def clusterMean (ps : List Pixel) (old : Centroid) : Centroid :=
  match ps with
  | [] => old
  | _ =>
    let n : ℚ := (ps.length : ℚ)
    ((ps.map (fun p => (p.1 : ℚ))).sum / n,
     (ps.map (fun p => (p.2.1 : ℚ))).sum / n,
     (ps.map (fun p => (p.2.2 : ℚ))).sum / n)

/-- One Lloyd iteration: assign every data point to its nearest centroid
and replace each centroid by the mean of its cluster. -/
def kmeansStep (data : List Pixel) (cs : List Centroid) : List Centroid :=
  (List.range cs.length).map (fun j =>
    clusterMean (data.filter (fun p => argmin (cs.map (dist2 p)) = j))
      (cs.getD j (0, 0, 0)))

/-- Iterated Lloyd steps. -/
def kmeansIterate : ℕ → List Pixel → List Centroid → List Centroid
  | 0, _, cs => cs
  | n + 1, data, cs => kmeansIterate n data (kmeansStep data cs)

/-- Deterministic model of `sklearn.cluster.KMeans(n_clusters=k,
random_state=seed).fit(data).cluster_centers_`: the seeded
initialisation picks `k` data rows through a PRNG stream started at the
fixed seed, then Lloyd iterations run (the model uses a fixed iteration
budget standing for `max_iter` with early convergence).  What the claims
use is that this is a deterministic function of `(seed, data)`, which
also holds of the library: with `random_state` fixed the fit depends
only on the data array. -/
def kmeansFit (seed iters k : ℕ) (data : List Pixel) : List Centroid :=
  kmeansIterate iters data
    ((draw seed k (List.range data.length)).map (fun i =>
      let p := data.getD i (0, 0, 0)
      ((p.1 : ℚ), (p.2.1 : ℚ), (p.2.2 : ℚ))))

/-- Truncation toward zero, the conversion `astype(int)` applied to the
centroid array. -/
def truncQ (q : ℚ) : ℤ := if 0 ≤ q then ⌊q⌋ else -⌊-q⌋

/-- The `dominant_colors` list of `_analyze_colors`
(`src/design_analyzer.py` lines 241-251, 262): sample the pixel rows
with the ambient (unseeded) random state, fit
`KMeans(n_clusters=5, random_state=42)` on the sample, and truncate the
centroids to integers. -/
def dominantColors (px : List Pixel) (seed : ℕ) : List (ℤ × ℤ × ℤ) :=
  (kmeansFit 42 10 5 (samplePixels px seed)).map (fun c =>
    (truncQ c.1, truncQ c.2.1, truncQ c.2.2))

/-- Luma of a pixel: the PIL `convert(L)` grayscale value,
`(299 R + 587 G + 114 B) / 1000` with the integer part taken. -/
def luma (p : Pixel) : ℕ := (299 * p.1 + 587 * p.2.1 + 114 * p.2.2) / 1000

/-- Population variance of a list of naturals (NumPy `std` squared,
`ddof = 0`). -/
def varQ (l : List ℕ) : ℚ :=
  let m := listMean (l.map (fun v => (v : ℚ)))
  listMean (l.map (fun v => ((v : ℚ) - m) ^ 2))

/-- The result dict of `DesignAnalyzer._analyze_colors`
(`src/design_analyzer.py` lines 261-277).  The contrast level is a real
number because NumPy `std` is a square root. -/
structure ColorResult where
  dominant_colors : List (ℤ × ℤ × ℤ)
  average_rgb : List ℚ
  contrast_level : ℝ
  brightness : ℚ
  color_diversity : ℕ

/-- Embedding of `DesignAnalyzer._analyze_colors`
(`src/design_analyzer.py` lines 222-277).  `input` is `.ok` with the RGB
pixel rows and the ambient random seed when the `try` body runs to
completion, and `.error` when any exception occurs inside it (corrupt
image, degenerate clustering); the `except` branch returns the fixed
neutral-gray default dict and never propagates.  On the success path the
fields follow the source: centroid colors from the seeded clustering of
the random sample, per-channel means, standard deviation and mean of the
grayscale values, and the number of distinct pixels among the first 1000
sampled. -/
noncomputable def analyze_colors (input : Except Unit (List Pixel × ℕ)) :
    ColorResult :=
  match input with
  | .ok (px, seed) =>
    let sample := samplePixels px seed
    let gray := px.map luma
    { dominant_colors := dominantColors px seed
      average_rgb :=
        [listMean (px.map (fun p => (p.1 : ℚ))),
         listMean (px.map (fun p => (p.2.1 : ℚ))),
         listMean (px.map (fun p => (p.2.2 : ℚ)))]
      contrast_level := Real.sqrt (varQ gray)
      brightness := listMean (gray.map (fun v => (v : ℚ)))
      color_diversity := (sample.take 1000).dedup.length }
  | .error _ =>
    { dominant_colors := [(128, 128, 128)]
      average_rgb := [128, 128, 128]
      contrast_level := 50
      brightness := 128
      color_diversity := 100 }

/-- A six-pixel image used to exercise the color pipeline on concrete
inputs: three black pixels, two white ones and one dark gray one. -/
def examplePixels : List Pixel :=
  [(0, 0, 0), (0, 0, 0), (0, 0, 0), (255, 255, 255), (255, 255, 255), (10, 10, 10)]

/-- A concrete `evaluate_website` behaviour for exercising
`batch_evaluate`: the capture of `"b"` raises, every other URL evaluates
to the result 7. -/
def witnessEval : String → Except String ℕ :=
  fun u => if u = "b" then .error "capture failed" else .ok 7

/-- A concrete timestamp oracle. -/
def witnessClock : String → String := fun _ => "2024-01-01T12:00:00"

/-- A concrete three-URL batch whose middle URL fails. -/
def witnessUrls : List String := ["a", "b", "c"]

end EvalModel

namespace EvalModel

/-- The weighted fold of `_calculate_final_score` equals the accumulator
plus the sum of `score * weight` over the weight entries whose category
is present in the analysis results. -/
lemma foldl_weighted_sum (r : List (String × ℚ)) (w : List (String × ℚ)) (a : ℚ) :
    w.foldl (fun acc cw =>
      match alookup r cw.1 with
      | some s => acc + s * cw.2
      | none => acc) a
    = a + ((w.filter (fun cw => (alookup r cw.1).isSome)).map
        (fun cw => (alookup r cw.1).getD 0 * cw.2)).sum := by
  induction w generalizing a with
  | nil => simp
  | cons hd tl ih =>
    simp only [List.foldl_cons, List.filter_cons]
    cases h : alookup r hd.1 with
    | none => simp [h, ih]
    | some s =>
      simp [h, ih]
      ring

/-- Replacing the score by one with the same clamped value does not
change the category. -/
lemma score_category_congr (ranges : List ScoreRange) {a b : ℚ}
    (h : clampScore a = clampScore b) :
    get_score_category ranges (.num a) = get_score_category ranges (.num b) := by
  simp only [get_score_category]
  rw [h]

/-- Claim C1, amended: `calculateFinalScore` is the sum of
`score * weight` over exactly the categories present in both the weights
mapping and the analysis result (absent categories silently skipped, no
renormalisation), rounded to 2 decimal places; the example scores
{typography 80, color 90, layout 70, usability 85, modern_design 75}
with weights {0.25, 0.20, 0.25, 0.20, 0.10} yield 80.0 (not 80.75 as the
spec example states). -/
theorem final_score_weighted_sum :
    (∀ w r : List (String × ℚ),
      calculate_final_score w r =
        pythonRound2 (((w.filter (fun cw => (alookup r cw.1).isSome)).map
          (fun cw => (alookup r cw.1).getD 0 * cw.2)).sum)) ∧
    calculate_final_score testWeights testScores = 80 := by
  constructor
  · intro w r
    unfold calculate_final_score
    rw [foldl_weighted_sum, zero_add]
  · with_unfolding_all decide

/-- Claim C1, counterexample to the stated example: on the example
scores and weights the final score is 80, not 80.75 (which is 323/4). -/
theorem final_score_example_value :
    calculate_final_score testWeights testScores = 80 ∧
    calculate_final_score testWeights testScores ≠ 323 / 4 := by
  constructor
  · with_unfolding_all decide
  · with_unfolding_all decide

/-- Claim C2, amended: `get_score_category` scans the configured ranges
in their defined order and returns the name of the first range whose
inclusive bounds contain the clamped score, and is total; when no range
matches, the fallback category name is `"fair"` (not `"poor"` as the
spec states).  On the test configuration, 95 is excellent and 59 and 0
are poor. -/
theorem score_category_first_range :
    (∀ (ranges : List ScoreRange) (q : ℚ) (name : String),
      findCategory ranges (clampScore q) = some name →
        get_score_category ranges (.num q) = name) ∧
    (∀ (ranges : List ScoreRange) (q : ℚ),
      findCategory ranges (clampScore q) = none →
        get_score_category ranges (.num q) = "fair") ∧
    get_score_category testRanges (.num 95) = "excellent" ∧
    get_score_category testRanges (.num 59) = "poor" ∧
    get_score_category testRanges (.num 0) = "poor" := by
  refine ⟨?_, ?_, ?_, ?_, ?_⟩
  · intro ranges q name h
    simp [get_score_category, h]
  · intro ranges q h
    simp [get_score_category, h]
  · with_unfolding_all decide
  · with_unfolding_all decide
  · with_unfolding_all decide

/-- Claim C2, witness: with the test ranges the clamped score 95 is
matched first by the excellent range, and the category is excellent. -/
theorem score_category_first_range_witness :
    findCategory testRanges (clampScore 95) = some "excellent" ∧
    get_score_category testRanges (.num 95) = "excellent" :=
  ⟨by with_unfolding_all decide,
   score_category_first_range.1 testRanges 95 "excellent"
     (by with_unfolding_all decide)⟩

/-- Claim C2, counterexample: with the test configuration (which leaves
the interval (59, 90) uncovered) a score of 70 falls back to the
category `"fair"`, not to a `"poor"` default. -/
theorem score_category_fallback_not_poor :
    get_score_category testRanges (.num 70) = "fair" ∧
    get_score_category testRanges (.num 70) ≠ "poor" := by
  constructor
  · with_unfolding_all decide
  · with_unfolding_all decide

/-- Claim C5: `get_score_category` clamps out-of-bounds scores instead
of rejecting them: any score at most 0 is categorised like 0 and any
score at least 100 is categorised like 100 (and the function is total,
so no input raises); on the test ranges, -5 is poor and 150 is
excellent. -/
theorem score_category_clamped :
    (∀ (ranges : List ScoreRange) (q : ℚ), q ≤ 0 →
      get_score_category ranges (.num q) = get_score_category ranges (.num 0)) ∧
    (∀ (ranges : List ScoreRange) (q : ℚ), 100 ≤ q →
      get_score_category ranges (.num q) = get_score_category ranges (.num 100)) ∧
    get_score_category testRanges (.num (-5)) = "poor" ∧
    get_score_category testRanges (.num 150) = "excellent" := by
  refine ⟨?_, ?_, ?_, ?_⟩
  · intro ranges q hq
    apply score_category_congr
    unfold clampScore
    rw [min_eq_right (hq.trans (by norm_num)), max_eq_left hq,
      min_eq_right (by norm_num : (0:ℚ) ≤ 100), max_self]
  · intro ranges q hq
    apply score_category_congr
    unfold clampScore
    rw [min_eq_left hq, min_eq_left (by norm_num : (100:ℚ) ≤ 100)]
  · with_unfolding_all decide
  · with_unfolding_all decide

/-- Claim C5, witness: the clamping equalities instantiated at -5 and
150 on the test ranges. -/
theorem score_category_clamped_witness :
    get_score_category testRanges (.num (-5)) = get_score_category testRanges (.num 0) ∧
    get_score_category testRanges (.num 150) = get_score_category testRanges (.num 100) :=
  ⟨score_category_clamped.1 testRanges (-5) (by norm_num),
   score_category_clamped.2.1 testRanges 150 (by norm_num)⟩

/-- Claim C10: a `None` or non-numeric score is replaced by the fixed
midpoint 50, so it is categorised exactly like the numeric score 50; in
particular, whenever some configured range contains 50, the result is
the name of the first such range. -/
theorem score_category_non_numeric_midpoint :
    (∀ ranges : List ScoreRange,
      get_score_category ranges .noneVal = get_score_category ranges (.num 50) ∧
      get_score_category ranges .nonNumeric = get_score_category ranges (.num 50)) ∧
    (∀ (ranges : List ScoreRange) (name : String),
      findCategory ranges 50 = some name →
        get_score_category ranges .noneVal = name ∧
        get_score_category ranges .nonNumeric = name) := by
  have hclamp : clampScore 50 = 50 := by
    unfold clampScore
    rw [min_eq_right (by norm_num : (50:ℚ) ≤ 100)]
    exact max_eq_right (by norm_num)
  constructor
  · intro ranges
    exact ⟨rfl, rfl⟩
  · intro ranges name h
    constructor <;> simp [get_score_category, hclamp, h]

/-- Claim C10, witness: on the test ranges the first (and only) range
containing 50 is the poor range, and both `None` and a non-numeric score
are categorised as poor. -/
theorem score_category_non_numeric_midpoint_witness :
    findCategory testRanges 50 = some "poor" ∧
    get_score_category testRanges .noneVal = "poor" ∧
    get_score_category testRanges .nonNumeric = "poor" :=
  ⟨by with_unfolding_all decide,
   (score_category_non_numeric_midpoint.2 testRanges "poor"
     (by with_unfolding_all decide)).1,
   (score_category_non_numeric_midpoint.2 testRanges "poor"
     (by with_unfolding_all decide)).2⟩

/-- Claim C3: batch evaluation of N URLs returns exactly N results in
input order; a URL whose evaluation raises gets an error record with its
url, the error message and a timestamp in its own slot, and a URL whose
evaluation succeeds gets its result in its own slot regardless of what
happens to other URLs (one failure never aborts the batch). -/
theorem batch_evaluate_isolated_slots :
    ∀ (α : Type) (ev : String → Except String α) (clock : String → String)
      (urls : List String),
      (batch_evaluate ev clock urls).length = urls.length ∧
      (∀ (i : ℕ) (u : String), urls[i]? = some u →
        (∀ e, ev u = .error e →
          (batch_evaluate ev clock urls)[i]? =
            some (.errRec u e (clock u))) ∧
        (∀ r, ev u = .ok r →
          (batch_evaluate ev clock urls)[i]? = some (.ok r))) := by
  intro α ev clock urls
  constructor
  · simp [batch_evaluate]
  · intro i u hu
    constructor
    · intro e he
      simp [batch_evaluate, List.getElem?_map, hu, he]
    · intro r hr
      simp [batch_evaluate, List.getElem?_map, hu, hr]

/-- Claim C3, witness: a three-URL batch whose middle URL raises yields
three slots, with the error record exactly in the middle slot and full
results in the two others. -/
theorem batch_evaluate_isolated_slots_witness :
    (batch_evaluate witnessEval witnessClock witnessUrls).length =
      witnessUrls.length ∧
    (batch_evaluate witnessEval witnessClock witnessUrls)[1]? =
      some (.errRec "b" "capture failed" (witnessClock "b")) ∧
    (batch_evaluate witnessEval witnessClock witnessUrls)[0]? = some (.ok 7) ∧
    (batch_evaluate witnessEval witnessClock witnessUrls)[2]? = some (.ok 7) :=
  ⟨(batch_evaluate_isolated_slots ℕ witnessEval witnessClock witnessUrls).1,
   ((batch_evaluate_isolated_slots ℕ witnessEval witnessClock witnessUrls).2
      1 "b" rfl).1 "capture failed" rfl,
   ((batch_evaluate_isolated_slots ℕ witnessEval witnessClock witnessUrls).2
      0 "a" rfl).2 7 rfl,
   ((batch_evaluate_isolated_slots ℕ witnessEval witnessClock witnessUrls).2
      2 "c" rfl).2 7 rfl⟩

/-- Claim C4, amended: whenever the OpenAI call raises (the `.error`
outcome covers network errors, provider errors and non-parseable
responses alike), the fixed default dict is substituted and
`analyze_design` produces the five complete category results in order,
each with score 70 and one generic recommendation; but when the call
returns parseable JSON that is not an object, no default is substituted
and `analyze_design` raises an `AttributeError` at the field reads,
which sit outside every handler. -/
theorem analyze_design_ai_failure_defaults :
    (∀ e : String,
      analyze_with_openai (.error e) = .obj openaiFailureDefault ∧
      analyze_design (.error e) = .ok (categoryResults openaiFailureDefault)) ∧
    (categoryResults openaiFailureDefault).map Prod.fst =
      ["typography", "color", "layout", "usability", "modern_design"] ∧
    (categoryResults openaiFailureDefault).length = 5 ∧
    (∀ p ∈ categoryResults openaiFailureDefault,
      p.2.score = 70 ∧ p.2.recommendations.length = 1) ∧
    (∀ t : String,
      analyze_design (.ok (.nonObj t)) =
        .error ("AttributeError: " ++ t ++ " object has no attribute get")) := by
  refine ⟨fun e => ⟨rfl, rfl⟩, rfl, rfl, ?_, fun t => rfl⟩
  intro p hp
  simp [categoryResults, openaiFailureDefault] at hp
  rcases hp with rfl | rfl | rfl | rfl | rfl <;> exact ⟨rfl, rfl⟩

/-- Claim C4, witness: on a concrete network error the default is
substituted and the typography slot of the result carries score 70 and
a single generic recommendation; on a parsed `null` response the result
is the `AttributeError`. -/
theorem analyze_design_ai_failure_defaults_witness :
    analyze_with_openai (.error "network error") = .obj openaiFailureDefault ∧
    analyze_design (.error "network error") =
      .ok (categoryResults openaiFailureDefault) ∧
    (("typography",
        (⟨70, "Análisis no disponible", ["Verificar contraste de texto"]⟩ :
          CategoryResult)) ∈ categoryResults openaiFailureDefault ∧
      (70 : ℚ) = 70 ∧
      (["Verificar contraste de texto"] : List String).length = 1) ∧
    analyze_design (.ok (.nonObj "NoneType")) =
      .error ("AttributeError: " ++ "NoneType" ++ " object has no attribute get") := by
  have hmem : ("typography",
      (⟨70, "Análisis no disponible", ["Verificar contraste de texto"]⟩ :
        CategoryResult)) ∈ categoryResults openaiFailureDefault := by
    with_unfolding_all decide
  exact ⟨(analyze_design_ai_failure_defaults.1 "network error").1,
    (analyze_design_ai_failure_defaults.1 "network error").2,
    ⟨hmem, (analyze_design_ai_failure_defaults.2.2.2.1 _ hmem).1,
     (analyze_design_ai_failure_defaults.2.2.2.1 _ hmem).2⟩,
    analyze_design_ai_failure_defaults.2.2.2.2 "NoneType"⟩

/-- Claim C4, counterexample: when the provider returns the parseable
response `null` (so `json.loads` succeeds with a non-dict value), no
default object is substituted — the value is passed through unchanged —
and `analyze_design` raises instead of producing five category
results, contradicting the claimed guarantee. -/
theorem analyze_design_parseable_nonobject_raises :
    analyze_with_openai (.ok (.nonObj "NoneType")) = .nonObj "NoneType" ∧
    analyze_with_openai (.ok (.nonObj "NoneType")) ≠ .obj openaiFailureDefault ∧
    analyze_design (.ok (.nonObj "NoneType")) =
      .error ("AttributeError: " ++ "NoneType" ++ " object has no attribute get") := by
  refine ⟨rfl, ?_, rfl⟩
  with_unfolding_all decide

/-- The enumeration index of the section-scanning state advances by one
per profile entry, so after the loop it equals the initial index plus
the profile length. -/
lemma foldl_fsStep_fst (t : ℚ) (l : List ℚ) :
    ∀ (i : ℕ) (b : Bool) (s : ℕ) (acc : List (ℕ × ℕ)),
      (l.foldl (fsStep t) (i, b, s, acc)).1 = i + l.length := by
  induction l with
  | nil =>
    intro i b s acc
    simp
  | cons v l ih =>
    intro i b s acc
    simp only [List.foldl_cons, fsStep]
    split_ifs <;> simp [ih] <;> omega

/-- Claim C6: on the profile [5,5,5,50,50,5,5,30,30,30,5,5] with
threshold 10 the segmentation finds at least two sections; and for every
profile, when the scan ends with a section still open, the last emitted
section is closed exactly at the profile length. -/
theorem find_sections_example_and_closure :
    (find_sections exampleProfile 10).length ≥ 2 ∧
    ∀ (profile : List ℚ) (t : ℚ),
      (profile.foldl (fsStep t) (0, false, 0, [])).2.1 = true →
      (find_sections profile t).getLast? =
        some ((profile.foldl (fsStep t) (0, false, 0, [])).2.2.1,
          profile.length) := by
  constructor
  · with_unfolding_all decide
  · intro profile t h
    simp only [find_sections]
    rw [if_pos h, List.getLast?_concat, foldl_fsStep_fst]
    simp

/-- Claim C6, witness: the example profile itself ends inside a section
(its final values 5, 5 lie below the threshold), and its last section is
closed at the profile length 12. -/
theorem find_sections_example_and_closure_witness :
    (find_sections exampleProfile 10).length ≥ 2 ∧
    (exampleProfile.foldl (fsStep 10) (0, false, 0, [])).2.1 = true ∧
    (find_sections exampleProfile 10).getLast? =
      some ((exampleProfile.foldl (fsStep 10) (0, false, 0, [])).2.2.1,
        exampleProfile.length) :=
  ⟨find_sections_example_and_closure.1,
   by with_unfolding_all decide,
   find_sections_example_and_closure.2 exampleProfile 10
     (by with_unfolding_all decide)⟩

/-- Claim C7, amended: on every successfully analysed image the layout
result satisfies whitespace ratio = 1 - content density; on the failure
path the analyzer substitutes the fixed defaults (density 0.5,
3 sections, balance 10.0) together with the hard-coded whitespace ratio
0.3, so the complement identity does not extend to that path. -/
theorem layout_whitespace_complement :
    (∀ inp : LayoutInput,
      (analyze_layout (some inp)).whitespace_ratio =
        1 - (analyze_layout (some inp)).content_density) ∧
    (analyze_layout none).content_density = 1/2 ∧
    (analyze_layout none).whitespace_ratio = 3/10 ∧
    (analyze_layout none).sections_detected = 3 ∧
    (analyze_layout none).horizontal_balance = 10 :=
  ⟨fun _ => rfl, rfl, rfl, rfl, rfl⟩

/-- Claim C7, counterexample: on the failure path the default whitespace
ratio is 0.3 while 1 minus the default content density is 0.5, so the
claimed identity fails there. -/
theorem layout_default_whitespace_mismatch :
    (analyze_layout none).whitespace_ratio ≠
      1 - (analyze_layout none).content_density := by
  with_unfolding_all decide

/-- Claim C8: when the color analysis body throws, the handler
substitutes the fixed neutral-gray descriptor: dominant color
(128,128,128), average RGB [128,128,128], contrast 50.0, brightness
128.0 and diversity 100; the function is total, so the color step never
fails the evaluation. -/
theorem colors_failure_neutral_gray :
    (analyze_colors (.error ())).dominant_colors = [(128, 128, 128)] ∧
    (analyze_colors (.error ())).average_rgb = [128, 128, 128] ∧
    (analyze_colors (.error ())).contrast_level = 50 ∧
    (analyze_colors (.error ())).brightness = 128 ∧
    (analyze_colors (.error ())).color_diversity = 100 :=
  ⟨rfl, rfl, rfl, rfl, rfl⟩

set_option maxRecDepth 400000 in
set_option maxHeartbeats 4000000 in
/-- Claim C9, counterexample: two runs of the dominant-color extraction
on the same six-pixel image under two ambient NumPy random states (the
code never seeds the sampling) draw different samples and report
different dominant-color lists. -/
theorem dominant_colors_two_runs_differ :
    dominantColors examplePixels 1 ≠ dominantColors examplePixels 2 := by
  with_unfolding_all decide

/-- Claim C9, amended: dominant-color extraction is deterministic only
given the drawn sample: the 5-cluster centroid clustering is seeded
(random_state 42), so two runs whose unseeded pixel sampling happens to
draw the same sample produce the same dominant-color list; the sampling
itself uses the unseeded global NumPy state, so distinct runs need not
agree. -/
theorem dominant_colors_sample_function :
    ∀ (px : List Pixel) (s1 s2 : ℕ),
      samplePixels px s1 = samplePixels px s2 →
      dominantColors px s1 = dominantColors px s2 := by
  intro px s1 s2 h
  unfold dominantColors
  rw [h]

set_option maxRecDepth 400000 in
set_option maxHeartbeats 1000000 in
/-- Claim C9, witness: two ambient states congruent modulo the generator
width draw the same sample, and the dominant colors then agree. -/
theorem dominant_colors_sample_function_witness :
    samplePixels examplePixels 1 = samplePixels examplePixels 4294967297 ∧
    dominantColors examplePixels 1 = dominantColors examplePixels 4294967297 :=
  ⟨by with_unfolding_all decide,
   dominant_colors_sample_function examplePixels 1 4294967297
     (by with_unfolding_all decide)⟩

end EvalModel
